import Mathlib

/-!
Shallow embedding of the CareConnect LeapFrog analytics engine
(src/backend/app/ai/leapfrog_engine.py, class AdvancedLeapFrogAI) and proofs
about it.

Modelling conventions, used throughout:
- Python numbers are embedded as exact rationals; integer scores (severity,
  mood scores, and so on) are carried as elements of the rational field, and
  float arithmetic is read as exact arithmetic over the rationals (or over
  the reals where a square root is involved).
- Calendar dates and timestamps are embedded as natural numbers; only their
  order and equality are used by the engine.
- Nullable columns are embedded as Option values. Python truth testing of a
  possibly missing number (as in "if m.stress_level") treats both None and 0
  as missing; the helper truthyOpt reproduces this.
- A Python function that can raise an uncaught exception is embedded with an
  Option result, where none stands for the raised exception.
- The repository layer is external: each analysis function receives the
  already fetched, date-filtered and ordered record lists as inputs, and
  patient lookup is a Boolean input.
-/

namespace CareConnect

/-- Embedding of the Python slice xs[-n:]: the last n elements of a list
(the whole list when it has at most n elements). -/
def lastN (n : ℕ) (xs : List α) : List α := xs.drop (xs.length - n)

/-- Embedding of the Python slice xs[:-n]: the list without its last n
elements (empty when the list has at most n elements). -/
def dropLastN (n : ℕ) (xs : List α) : List α := xs.take (xs.length - n)

/-- Arithmetic mean of a list of rationals, as computed by sum/len in the
source; callers only apply it to nonempty lists. -/
def meanQ (xs : List ℚ) : ℚ := xs.sum / (xs.length : ℚ)

/-- Python truth testing of an optional numeric field: None and 0 both count
as missing (as in the source filters "if m.stress_level"). -/
def truthyOpt (o : Option ℚ) : Option ℚ :=
  o.bind (fun v => if v = 0 then none else some v)

/-- Embedding of SymptomEntry (app/models/progress.py): the fields the
analytics engine reads. severity is the 1..10 integer scale; created_at is a
timestamp ordinal. Fields the engine never reads (location, notes, tags and
so on) are omitted. -/
structure SymptomEntry where
  symptom_name : String
  severity : ℚ
  created_at : ℕ
  deriving Repr, DecidableEq

/-- Embedding of MoodEntry (app/models/progress.py): mood_score is the
mandatory 1..10 scale; energy_level, stress_level and sleep_quality are
nullable; date_recorded is a nullable calendar date ordinal. -/
structure MoodEntry where
  mood_score : ℚ
  energy_level : Option ℚ
  stress_level : Option ℚ
  sleep_quality : Option ℚ
  date_recorded : Option ℕ
  deriving Repr, DecidableEq

/-- Embedding of ActivityEntry (app/models/progress.py): the fields the
engine reads. duration is nullable (minutes), completed is a Boolean, and
date_recorded is a nullable calendar date ordinal. -/
structure ActivityEntry where
  activity_type : String
  duration : Option ℚ
  completed : Bool
  date_recorded : Option ℕ
  deriving Repr, DecidableEq

/-- Embedding of ClinicalAssessment (app/models/progress.py): the risk
assessment only reads the nullable risk_level string. -/
structure AssessmentEntry where
  assessment_type : String
  total_score : ℚ
  risk_level : Option String
  deriving Repr, DecidableEq

/-- Embedding of TreatmentPlan (app/models/progress.py): the fields read by
the effectiveness analysis. start_date is a Date column (a calendar date
ordinal here), while SymptomEntry.created_at is a DateTime column; the two
are not comparable in Python 3, which matters below. -/
structure TreatmentPlan where
  id : ℕ
  start_date : ℕ
  adherence_percentage : Option ℚ
  effectiveness_score : Option ℚ
  deriving Repr, DecidableEq

/-- Result dictionary of the symptom trend analysis. The keys
severity_change and recent_average are present only on the main branch, so
they are Options; the most_common_symptoms key is not modelled (no claim
reads it). -/
structure SymptomTrendOut where
  trend : String
  severity_change : Option ℚ
  recent_average : Option ℚ
  confidence : ℚ
  deriving Repr, DecidableEq

/-- Size of the recent comparison window for a series of n entries: 7, or 3
when fewer than 7 entries exist (the two sides of the slice dichotomy at
leapfrog_engine.py lines 406-407 and 439-440). -/
def windowSize (n : ℕ) : ℕ := if 7 ≤ n then 7 else 3

/-- Recent window of the symptom trend (leapfrog_engine.py line 406): the
last 7 entries, or the last 3 when fewer than 7 exist. -/
def symptomRecentWindow (ss : List SymptomEntry) : List SymptomEntry :=
  lastN (windowSize ss.length) ss

/-- Older window of the symptom trend (line 407): the entries before the
recent window. -/
def symptomOlderWindow (ss : List SymptomEntry) : List SymptomEntry :=
  dropLastN (windowSize ss.length) ss

/-- Mean severity over the recent window (line 409). -/
def symptomRecentAvg (ss : List SymptomEntry) : ℚ :=
  meanQ ((symptomRecentWindow ss).map (·.severity))

/-- Severity change (lines 410-412): recent mean minus older mean, where
the older mean defaults to the recent mean when the older window is
empty. -/
def symptomChange (ss : List SymptomEntry) : ℚ :=
  symptomRecentAvg ss -
    (if (symptomOlderWindow ss).isEmpty then symptomRecentAvg ss
     else meanQ ((symptomOlderWindow ss).map (·.severity)))

/-- Embedding of AdvancedLeapFrogAI._analyze_symptom_trend
(leapfrog_engine.py lines 400-432). With fewer than 3 entries it returns the
insufficient_data dictionary; otherwise it compares the mean severity of the
recent window (last 7 entries, or last 3 when fewer than 7 exist) against
the mean of the remaining older entries (defaulting to the recent mean when
that remainder is empty), classifies the delta against the thresholds 1 and
-1, and reports confidence min(0.9, n/20). -/
def analyze_symptom_trend (symptoms : List SymptomEntry) : SymptomTrendOut :=
  if symptoms.length < 3 then
    { trend := "insufficient_data", severity_change := none,
      recent_average := none, confidence := 0 }
  else
    { trend :=
        if 1 < symptomChange symptoms then "increasing"
        else if symptomChange symptoms < -1 then "decreasing"
        else "stable",
      severity_change := some (symptomChange symptoms),
      recent_average := some (symptomRecentAvg symptoms),
      confidence := min (9/10) ((symptoms.length : ℚ) / 20) }

/-- Result dictionary of the mood trend analysis; keys other than trend and
confidence are present only on the main branch. -/
structure MoodTrendOut where
  trend : String
  mood_change : Option ℚ
  recent_average : Option ℚ
  recent_stress_average : Option ℚ
  recent_energy_average : Option ℚ
  confidence : ℚ
  deriving Repr, DecidableEq

/-- Recent window of the mood trend (leapfrog_engine.py line 439). -/
def moodRecentWindow (ms : List MoodEntry) : List MoodEntry :=
  lastN (windowSize ms.length) ms

/-- Older window of the mood trend (line 440). -/
def moodOlderWindow (ms : List MoodEntry) : List MoodEntry :=
  dropLastN (windowSize ms.length) ms

/-- Mean mood score over the recent window (line 442). -/
def moodRecentAvg (ms : List MoodEntry) : ℚ :=
  meanQ ((moodRecentWindow ms).map (·.mood_score))

/-- Mood change (lines 443-445): recent mean minus older mean, where the
older mean defaults to the recent mean when the older window is empty. -/
def moodChange (ms : List MoodEntry) : ℚ :=
  moodRecentAvg ms -
    (if (moodOlderWindow ms).isEmpty then moodRecentAvg ms
     else meanQ ((moodOlderWindow ms).map (·.mood_score)))

/-- Stress levels present (Python-truthy) among the recent mood window
(line 455). -/
def moodRecentStressVals (ms : List MoodEntry) : List ℚ :=
  (moodRecentWindow ms).filterMap (fun m => truthyOpt m.stress_level)

/-- Energy levels present (Python-truthy) among the recent mood window
(line 456). -/
def moodRecentEnergyVals (ms : List MoodEntry) : List ℚ :=
  (moodRecentWindow ms).filterMap (fun m => truthyOpt m.energy_level)

/-- Embedding of AdvancedLeapFrogAI._analyze_mood_trend (leapfrog_engine.py
lines 434-465). Mirrors analyze_symptom_trend with thresholds 1 and -1 and
confidence min(0.9, n/15), but additionally averages the stress and energy
levels over the recent window, dividing by the number of recent entries
whose level is present (Python-truthy). When no recent entry carries a
stress level, or none carries an energy level, the source divides by zero
and the call raises ZeroDivisionError: the embedding returns none. The
returned stress and energy averages are themselves truth-tested before
being stored, so a zero average would be stored as None. -/
def analyze_mood_trend (moods : List MoodEntry) : Option MoodTrendOut :=
  if moods.length < 3 then
    some { trend := "insufficient_data", mood_change := none,
           recent_average := none, recent_stress_average := none,
           recent_energy_average := none, confidence := 0 }
  else
    if (moodRecentStressVals moods).isEmpty then none
    else if (moodRecentEnergyVals moods).isEmpty then none
    else
      some { trend :=
               if 1 < moodChange moods then "improving"
               else if moodChange moods < -1 then "declining"
               else "stable",
             mood_change := some (moodChange moods),
             recent_average := some (moodRecentAvg moods),
             recent_stress_average := truthyOpt (some (meanQ (moodRecentStressVals moods))),
             recent_energy_average := truthyOpt (some (meanQ (moodRecentEnergyVals moods))),
             confidence := min (9/10) ((moods.length : ℚ) / 15) }

/-- Per-entry activity score used when building the per-day activity map:
the duration when present, else 1 for a completed activity and 0 otherwise
(leapfrog_engine.py line 478). -/
def activityDayScore (a : ActivityEntry) : ℚ :=
  match a.duration with
  | some v => v
  | none => if a.completed then 1 else 0

/-- Day keys of the per-day activity map: the distinct recorded dates, with
entries lacking a date skipped (the "if not day: continue" guard). -/
def activityDays (as : List ActivityEntry) : List ℕ :=
  (as.filterMap (·.date_recorded)).dedup

/-- Value of the per-day activity map at day d: the sum of the activity
scores of the entries recorded on d (leapfrog_engine.py lines 474-479). -/
def activityValue (as : List ActivityEntry) (d : ℕ) : ℚ :=
  ((as.filter (fun a => a.date_recorded = some d)).map activityDayScore).sum

/-- Day keys of the per-day mood map (entries lacking a date skipped). -/
def moodDays (ms : List MoodEntry) : List ℕ :=
  (ms.filterMap (·.date_recorded)).dedup

/-- Value of the per-day mood map at day d: the mean mood score over the
entries recorded on d (leapfrog_engine.py lines 482-492 build the sum and
the count separately and then divide). -/
def moodValue (ms : List MoodEntry) (d : ℕ) : ℚ :=
  meanQ ((ms.filter (fun m => m.date_recorded = some d)).map (·.mood_score))

/-- Days present in both per-day maps, ascending (the source intersects the
two key sets and sorts them; insertion sort produces the same ascending
list and keeps the definition kernel-computable). -/
def commonDays (as : List ActivityEntry) (ms : List MoodEntry) : List ℕ :=
  List.insertionSort (· ≤ ·) ((activityDays as).filter (fun d => d ∈ moodDays ms))

/-- Population variance of a list of rationals (the square of np.std). -/
def varPop (xs : List ℚ) : ℚ := meanQ (xs.map (fun v => (v - meanQ xs)^2))

/-- Population covariance of two equal-length lists of rationals. The
Pearson coefficient computed by np.corrcoef equals
covPop x y / sqrt (varPop x * varPop y). -/
def covPop (xs ys : List ℚ) : ℚ :=
  meanQ (List.zipWith (fun a b => (a - meanQ xs) * (b - meanQ ys)) xs ys)

/-- Pearson correlation coefficient of the two aligned vectors, as a real
number. Used in theorem statements; the executable embedding below avoids
the square root by deciding the sign and threshold comparisons on
covariances and variances, and the bridging lemmas prove the two views
agree. -/
noncomputable def pearsonR (xs ys : List ℚ) : ℝ :=
  (covPop xs ys : ℝ) / Real.sqrt ((varPop xs : ℝ) * (varPop ys : ℝ))

/-- Aligned activity vector: the per-day activity values over the common
days (leapfrog_engine.py line 499). -/
def corrX (as : List ActivityEntry) (ms : List MoodEntry) : List ℚ :=
  (commonDays as ms).map (activityValue as)

/-- Aligned mood vector: the per-day mean mood scores over the common days
(line 500). -/
def corrY (as : List ActivityEntry) (ms : List MoodEntry) : List ℚ :=
  (commonDays as ms).map (moodValue ms)

/-- Result dictionary of the activity-mood correlation analysis. The
correlation_strength value returned by the source is round(abs r, 3); to
stay inside the rationals, the embedding carries the exact square of the
unrounded strength (r squared, and literal 0 on the degenerate branches,
where the source also returns literal 0). The recommended_activities key is
a pure function of correlation_type and is not modelled. -/
structure CorrOut where
  correlation_strength_sq : ℚ
  correlation_type : String
  confidence : ℚ
  deriving Repr, DecidableEq

/-- Embedding of AdvancedLeapFrogAI._analyze_activity_correlation
(leapfrog_engine.py lines 467-539). Requires at least 3 activity and 3 mood
entries, builds the two per-day maps, intersects their day keys, requires
at least 3 common days, returns the none/0.4 result when either aligned
vector has zero variance, and otherwise classifies the Pearson coefficient
r: positive when r is above 0.1, negative when r is below -0.1, else none;
confidence 0.6 when abs r is at least 0.3, else 0.4. With det the product
of the variances and c the covariance, the source comparisons on
r = c / sqrt det are decided here by the exact equivalents
(r above 1/10 iff 0 below c and det below 100 c squared, and
abs r at least 3/10 iff 9 det at most 100 c squared); the NaN fallback of
the source (corr set to 0 when np.corrcoef returns NaN) is unreachable in
exact arithmetic because this branch has det nonzero. -/
def analyze_activity_correlation (as : List ActivityEntry) (ms : List MoodEntry) : CorrOut :=
  if as.length < 3 ∨ ms.length < 3 then
    { correlation_strength_sq := 0, correlation_type := "insufficient_data",
      confidence := 0 }
  else if (commonDays as ms).length < 3 then
    { correlation_strength_sq := 0, correlation_type := "insufficient_data",
      confidence := 0 }
  else if varPop (corrX as ms) = 0 ∨ varPop (corrY as ms) = 0 then
    { correlation_strength_sq := 0, correlation_type := "none",
      confidence := 2/5 }
  else
    { correlation_strength_sq :=
        (covPop (corrX as ms) (corrY as ms))^2 /
          (varPop (corrX as ms) * varPop (corrY as ms)),
      correlation_type :=
        if 0 < covPop (corrX as ms) (corrY as ms) ∧
            varPop (corrX as ms) * varPop (corrY as ms) <
              100 * (covPop (corrX as ms) (corrY as ms))^2 then "positive"
        else if covPop (corrX as ms) (corrY as ms) < 0 ∧
            varPop (corrX as ms) * varPop (corrY as ms) <
              100 * (covPop (corrX as ms) (corrY as ms))^2 then "negative"
        else "none",
      confidence :=
        if 9 * (varPop (corrX as ms) * varPop (corrY as ms)) ≤
            100 * (covPop (corrX as ms) (corrY as ms))^2 then 3/5
        else 2/5 }

/-- Condition under which the suggestion engine reacts to the correlation:
the source tests round(abs r, 3) above 0.5 on the stored strength. In exact
terms round-half-even of abs r to 3 decimals exceeds 1/2 iff abs r exceeds
0.5005 (the tie 0.5005 itself rounds to the even 0.500), iff r squared
exceeds 0.5005 squared = 1002001/4000000; on the degenerate branches the
stored strength is literal 0 and the test is false, matching the 0 carried
in correlation_strength_sq. -/
def corr_strength_gt_half (c : CorrOut) : Bool :=
  decide ((1002001 : ℚ)/4000000 < c.correlation_strength_sq)

/-- Length of the Python slice symptoms[-14:-7] when at least 14 entries
exist, and the literal 0 used by the source otherwise (leapfrog_engine.py
line 557). -/
def olderWindowCount (ss : List SymptomEntry) : ℕ :=
  if 14 ≤ ss.length then ((ss.drop (ss.length - 14)).take 7).length else 0

/-- Embedding of AdvancedLeapFrogAI._identify_risk_factors
(leapfrog_engine.py lines 541-561): at least 2 severity-8-or-more entries in
the last 7 symptoms, at least 3 mood scores of 3 or less in the last 7
moods, and a recent symptom count above 1.5 times the older-window count
(the float comparison recent above older * 1.5 is decided by the integer
equivalent 3 * older below 2 * recent). -/
def identify_risk_factors (ss : List SymptomEntry) (ms : List MoodEntry) : List String :=
  (if 2 ≤ ((lastN 7 ss).filter (fun s => 8 ≤ s.severity)).length then
    ["high_severity_symptoms"] else []) ++
  (if 3 ≤ ((lastN 7 ms).filter (fun m => m.mood_score ≤ 3)).length then
    ["persistent_low_mood"] else []) ++
  (if olderWindowCount ss * 3 < (lastN 7 ss).length * 2 then
    ["increasing_symptom_frequency"] else [])

/-- Embedding of AdvancedLeapFrogAI._identify_improvement_areas
(leapfrog_engine.py lines 563-576). The symptoms argument is accepted and
ignored, as in the source. The stress and sleep tests are Python-truthy
conjunctions, so a stored level of 0 does not trigger them. -/
def identify_improvement_areas (_ss : List SymptomEntry) (ms : List MoodEntry)
    (acts : List ActivityEntry) : List String :=
  (if (lastN 7 acts).length < 3 then ["increase_activity_tracking"] else []) ++
  (if (lastN 7 ms).any (fun m =>
      match truthyOpt m.stress_level with
      | some v => decide (8 ≤ v)
      | none => false) then ["stress_management"] else []) ++
  (if (lastN 7 ms).any (fun m =>
      match truthyOpt m.sleep_quality with
      | some v => decide (v ≤ 4)
      | none => false) then ["sleep_improvement"] else [])

/-- Result dictionary of the comprehensive risk assessment. The
risk_factors sub-dictionary is embedded as one Option field per key; the
recommendations key is a pure function of the factors and the level and is
not modelled. -/
structure RiskOut where
  overall_risk_score : ℚ
  risk_level : String
  rf_symptom_severity : Option ℚ
  rf_mood_decline : Option ℚ
  rf_low_engagement : Option ℚ
  rf_clinical_risk : Option ℚ
  deriving Repr, DecidableEq

/-- Last-7-entries count factor shared by the risk components: none when
the whole list is empty (the source then skips the factor), else the number
of entries of the last 7 satisfying the predicate divided by the literal 7
(with the source fallback 0 for an empty window, which cannot trigger when
the list is nonempty). -/
def riskWindowFactor (p : α → Bool) (xs : List α) : Option ℚ :=
  if xs.isEmpty then none
  else some (if (lastN 7 xs).isEmpty then 0
             else (((lastN 7 xs).filter p).length : ℚ) / 7)

/-- Symptom-severity risk factor: severity at least 8 (line 925). -/
def riskSymFactor (ss : List SymptomEntry) : Option ℚ :=
  riskWindowFactor (fun s => decide (8 ≤ s.severity)) ss

/-- Mood-decline risk factor: mood score at most 3 (line 933). -/
def riskMoodFactor (ms : List MoodEntry) : Option ℚ :=
  riskWindowFactor (fun m => decide (m.mood_score ≤ 3)) ms

/-- Low-engagement risk factor: incomplete activities (line 941); stored in
the factor dictionary but never added to the total. -/
def riskActFactor (acts : List ActivityEntry) : Option ℚ :=
  riskWindowFactor (fun a => !a.completed) acts

/-- Clinical risk factor from the latest assessment: 0.8 when severe, 0.6
when moderate, absent otherwise (lines 946-950). -/
def riskClinFactor (cas : List AssessmentEntry) : Option ℚ :=
  match cas.getLast? with
  | none => none
  | some a =>
    if a.risk_level = some "moderate" ∨ a.risk_level = some "severe" then
      some (if a.risk_level = some "severe" then 8/10 else 6/10)
    else none

/-- Weighted risk total: 0.30 times the symptom factor plus 0.25 times the
mood factor plus 0.3 times the clinical factor, each contributing only when
present (lines 928, 936, 950). -/
def riskOverall (ss : List SymptomEntry) (ms : List MoodEntry)
    (cas : List AssessmentEntry) : ℚ :=
  ((riskSymFactor ss).elim 0 fun v => v * (3/10)) +
  ((riskMoodFactor ms).elim 0 fun v => v * (1/4)) +
  ((riskClinFactor cas).elim 0 fun v => v * (3/10))

/-- Embedding of AdvancedLeapFrogAI._comprehensive_risk_assessment
(leapfrog_engine.py lines 914-963). Each factor is a count over the last 7
entries divided by the literal 7; the symptom factor has weight 0.30, the
mood factor 0.25, the clinical factor (0.8 for a severe latest assessment,
0.6 for moderate) 0.3. The low-engagement factor is stored in the factor
dictionary but never added to the total, exactly as in the source. The
level is high above 0.7, moderate above 0.4, else low. -/
def comprehensive_risk_assessment (ss : List SymptomEntry) (ms : List MoodEntry)
    (acts : List ActivityEntry) (cas : List AssessmentEntry) : RiskOut :=
  { overall_risk_score := riskOverall ss ms cas,
    risk_level :=
      if 7/10 < riskOverall ss ms cas then "high"
      else if 2/5 < riskOverall ss ms cas then "moderate"
      else "low",
    rf_symptom_severity := riskSymFactor ss,
    rf_mood_decline := riskMoodFactor ms,
    rf_low_engagement := riskActFactor acts,
    rf_clinical_risk := riskClinFactor cas }

/-- Data-volume threshold self.minimum_data_points of the engine. -/
def minimum_data_points : ℕ := 5

/-- Confidence filter threshold self.confidence_threshold of the engine. -/
def confidence_threshold : ℚ := 3/5

/-- Composite result of analyze_patient_progress: the trend, correlation,
risk-factor, improvement-area and data-sufficiency sections of the returned
dictionary. -/
structure ProgressAnalysis where
  patient_id : ℕ
  data_period_days : ℕ
  symptom_trend : SymptomTrendOut
  mood_trend : MoodTrendOut
  activity_correlation : CorrOut
  risk_factors : List String
  improvement_areas : List String
  symptoms_count : ℕ
  moods_count : ℕ
  activities_count : ℕ
  sufficient : Bool
  deriving Repr, DecidableEq

/-- Either the error dictionary for a missing patient, or the analysis. -/
inductive ProgressResult where
  | error (msg : String)
  | analysis (a : ProgressAnalysis)
  deriving Repr, DecidableEq

/-- Embedding of AdvancedLeapFrogAI.analyze_patient_progress
(leapfrog_engine.py lines 128-171). The repository fetch is external: the
function receives the patient-existence flag and the date-filtered, ordered
record lists. A missing patient yields the error dictionary. The overall
result is none (an uncaught exception escaping to the caller) exactly when
the mood trend computation raises. -/
def analyze_patient_progress (patientExists : Bool) (pid : ℕ) (ss : List SymptomEntry)
    (ms : List MoodEntry) (acts : List ActivityEntry) : Option ProgressResult :=
  if !patientExists then some (.error "Patient not found")
  else
    match analyze_mood_trend ms with
    | none => none
    | some mt =>
      some (.analysis {
        patient_id := pid,
        data_period_days := 30,
        symptom_trend := analyze_symptom_trend ss,
        mood_trend := mt,
        activity_correlation := analyze_activity_correlation acts ms,
        risk_factors := identify_risk_factors ss ms,
        improvement_areas := identify_improvement_areas ss ms acts,
        symptoms_count := ss.length,
        moods_count := ms.length,
        activities_count := acts.length,
        sufficient := decide (minimum_data_points ≤ ss.length) &&
                      decide (minimum_data_points ≤ ms.length) })

/-- Suggestion record: the type, title, confidence and priority keys of the
suggestion dictionaries. The free-text keys (description, reasoning, steps,
outcomes, monitoring parameters) and the metadata added by
_enhance_suggestion (current_treatment_id and a trigger_data wall-clock
timestamp) are fixed per suggestion kind or clock-derived and are not
modelled; no claim reads them. -/
structure Suggestion where
  suggestion_type : String
  title : String
  confidence_score : ℚ
  priority : String
  deriving Repr, DecidableEq

/-- Suggestion returned on insufficient data (leapfrog_engine.py lines
180-198). -/
def data_collection_suggestion : Suggestion :=
  { suggestion_type := "data_collection", title := "Increase Data Collection",
    confidence_score := 9/10, priority := "medium" }

/-- Embedding of _suggest_symptom_management (lines 578-599): confidence is
the trend confidence and the priority is high when the severity change
exceeds 2. -/
def suggest_symptom_management (st : SymptomTrendOut) : Suggestion :=
  { suggestion_type := "symptom_management", title := "Enhanced Symptom Management",
    confidence_score := st.confidence,
    priority := if 2 < st.severity_change.getD 0 then "high" else "medium" }

/-- Embedding of _suggest_mood_intervention (lines 601-622): confidence is
the trend confidence and the priority is high when the mood change is below
-2. -/
def suggest_mood_intervention (mt : MoodTrendOut) : Suggestion :=
  { suggestion_type := "mood_intervention", title := "Mood Support Intervention",
    confidence_score := mt.confidence,
    priority := if mt.mood_change.getD 0 < -2 then "high" else "medium" }

/-- Embedding of _suggest_activity_modification (lines 624-645). -/
def suggest_activity_modification (c : CorrOut) : Suggestion :=
  { suggestion_type := "activity_modification", title := "Optimize Activity Routine",
    confidence_score := c.confidence, priority := "medium" }

/-- Embedding of _suggest_risk_mitigation (lines 647-695): a fixed lookup
table keyed by the risk-factor name, confidence always 0.8. -/
def suggest_risk_mitigation (rf : String) : Suggestion :=
  if rf = "high_severity_symptoms" then
    { suggestion_type := "risk_mitigation", title := "Urgent Symptom Management",
      confidence_score := 8/10, priority := "urgent" }
  else if rf = "persistent_low_mood" then
    { suggestion_type := "risk_mitigation", title := "Mental Health Support",
      confidence_score := 8/10, priority := "high" }
  else if rf = "increasing_symptom_frequency" then
    { suggestion_type := "risk_mitigation", title := "Treatment Plan Review",
      confidence_score := 8/10, priority := "high" }
  else
    { suggestion_type := "risk_mitigation", title := "General Risk Management",
      confidence_score := 8/10, priority := "medium" }

/-- Suggestion emitted for the stress_management improvement area (lines
703-717). -/
def stress_suggestion : Suggestion :=
  { suggestion_type := "wellness_improvement",
    title := "Stress Management Enhancement",
    confidence_score := 7/10, priority := "medium" }

/-- Embedding of _suggest_general_improvements (lines 697-719): the loop
over the improvement areas has a branch only for stress_management, so
every other detected area contributes nothing. -/
def suggest_general_improvements (areas : List String) : List Suggestion :=
  areas.filterMap (fun a =>
    if a = "stress_management" then some stress_suggestion else none)

/-- Suggestions produced by steps 2-5 of generate_treatment_suggestions
(lines 208-223): symptom trend, mood trend, correlation strength, and one
risk-mitigation suggestion per identified risk factor, in source order. -/
def rule_suggestions (an : ProgressAnalysis) : List Suggestion :=
  (if an.symptom_trend.trend = "increasing" then
    [suggest_symptom_management an.symptom_trend] else []) ++
  (if an.mood_trend.trend = "declining" then
    [suggest_mood_intervention an.mood_trend] else []) ++
  (if corr_strength_gt_half an.activity_correlation then
    [suggest_activity_modification an.activity_correlation] else []) ++
  an.risk_factors.map suggest_risk_mitigation

/-- Embedding of AdvancedLeapFrogAI.generate_treatment_suggestions
(leapfrog_engine.py lines 173-235). The analysis is computed first, so an
exception raised there escapes (result none). A missing patient produces
the error dictionary, whose data_sufficiency lookup defaults to False, so
the data-collection suggestion is returned. With sufficient data the rule
suggestions are built, general improvements substitute for an empty rule
list, and the result is filtered by the confidence threshold and truncated
to 5. The current_treatment_id argument of the source only flows into the
unmodelled enhancement metadata and is omitted. -/
def generate_treatment_suggestions (patientExists : Bool) (pid : ℕ)
    (ss : List SymptomEntry) (ms : List MoodEntry) (acts : List ActivityEntry) :
    Option (List Suggestion) :=
  match analyze_patient_progress patientExists pid ss ms acts with
  | none => none
  | some (.error _) => some [data_collection_suggestion]
  | some (.analysis an) =>
    if !an.sufficient then some [data_collection_suggestion]
    else
      let base := rule_suggestions an
      let all := if base.isEmpty then suggest_general_improvements an.improvement_areas
                 else base
      some ((all.filter (fun s => confidence_threshold ≤ s.confidence_score)).take 5)

/-- Arithmetic mean over the reals. -/
noncomputable def meanR (xs : List ℝ) : ℝ := xs.sum / (xs.length : ℝ)

/-- Population variance over the reals. -/
noncomputable def varPopR (xs : List ℝ) : ℝ := meanR (xs.map (fun v => (v - meanR xs)^2))

/-- Population standard deviation (np.std) over the reals. -/
noncomputable def stdPop (xs : List ℝ) : ℝ := Real.sqrt (varPopR xs)

/-- Analyzed-branch dictionary of the treatment effectiveness analysis. The
metrics sub-dictionary is embedded as one Option field per key; the source
can only ever insert symptom_improvement and mood_stability, and the
weighted total sums the present metrics (weights 0.35 and 0.25) with no
renormalisation. treatment_duration_days is derived from the current
date. -/
structure EffOut where
  current_treatment_id : ℕ
  treatment_duration_days : ℤ
  effectiveness_score : ℝ
  m_symptom_improvement : Option ℝ
  m_mood_stability : Option ℝ
  adherence_rate : ℚ
  patient_reported_effectiveness : ℚ

/-- Either the no-treatments dictionary (status no_treatments,
effectiveness 0) or the analyzed dictionary. The no_current_treatment
branch of the source is unreachable (a nonempty plan list has a truthy
head) and is not represented. -/
inductive EffResult where
  | noTreatments
  | analyzed (e : EffOut)

/-- Post-treatment mood entries: recorded date on or after the plan start
date (leapfrog_engine.py line 378). -/
def postTreatmentMoods (plan : TreatmentPlan) (ms : List MoodEntry) : List MoodEntry :=
  ms.filter (fun m =>
    match m.date_recorded with
    | some d => decide (plan.start_date ≤ d)
    | none => false)

/-- Mood-stability metric (leapfrog_engine.py lines 377-382): absent when
no post-treatment mood exists; 1 - np.std(scores)/10 with two or more
post-treatment scores; the literal 0 with exactly one. -/
noncomputable def moodStabilityMetric (plan : TreatmentPlan) (ms : List MoodEntry) :
    Option ℝ :=
  if (postTreatmentMoods plan ms).isEmpty then none
  else some (if 1 < (postTreatmentMoods plan ms).length then
      1 - stdPop ((postTreatmentMoods plan ms).map (fun m => (m.mood_score : ℝ))) / 10
    else 0)

/-- Embedding of AdvancedLeapFrogAI._analyze_treatment_effectiveness
(leapfrog_engine.py lines 351-398), with today the current calendar date.

Two comparisons in the source can raise an uncaught TypeError, embedded as
a none result: first, SymptomEntry.created_at is a DateTime column while
TreatmentPlan.start_date is a Date column, and CPython refuses to order a
datetime against a date, so the pre/post split raises as soon as the
symptom list is nonempty while a plan exists; second, the mood filter
orders date_recorded against start_date, which raises when some mood lacks
a recorded date. On every returning run the symptom_improvement metric is
therefore never inserted, and the metrics dictionary holds at most
mood_stability: computed whenever some post-treatment mood exists, with
value 1 - np.std(scores)/10 for two or more post-treatment scores and the
literal 0 for exactly one. The weighted total consequently reduces to 0.25
times mood_stability when present and 0 otherwise. Adherence and the
patient-reported score fall back to 0 when null (or zero, via Python
truthiness, which fixes the same value 0). -/
noncomputable def analyze_treatment_effectiveness (today : ℕ) (plans : List TreatmentPlan)
    (ss : List SymptomEntry) (ms : List MoodEntry) : Option EffResult :=
  match plans with
  | [] => some .noTreatments
  | plan :: _ =>
    match ss with
    | _ :: _ => none
    | [] =>
      if ms.any (fun m => m.date_recorded = none) then none
      else
        some (.analyzed {
          current_treatment_id := plan.id,
          treatment_duration_days := (today : ℤ) - (plan.start_date : ℤ),
          effectiveness_score :=
            (moodStabilityMetric plan ms).elim 0 fun v => v * (1/4),
          m_symptom_improvement := none,
          m_mood_stability := moodStabilityMetric plan ms,
          adherence_rate := plan.adherence_percentage.getD 0,
          patient_reported_effectiveness := plan.effectiveness_score.getD 0 })

/-- Core fields of the comprehensive analysis dictionary embedded here: the
metadata, the risk assessment and the treatment effectiveness. The
remaining sub-analyses of the source (advanced symptom, mood and activity
analyses, clinical assessment trends, goal progress, predictive insights,
correlation matrix, phenotype, data quality) are pure functions of the
fetched records and, for the data-quality recency metric, of the current
date; they are not read by any claim and are not embedded. -/
structure ComprehensiveAnalysis where
  patient_id : ℕ
  analysis_timestamp : ℕ
  data_period_days : ℕ
  risk_assessment : RiskOut
  treatment_effectiveness : EffResult

/-- Either the patient-not-found error dictionary or the analysis. -/
inductive ComprehensiveResult where
  | error (msg : String)
  | analysis (a : ComprehensiveAnalysis)

/-- Embedding of AdvancedLeapFrogAI.comprehensive_patient_analysis
(leapfrog_engine.py lines 62-126): now is the wall-clock timestamp taken by
datetime.utcnow() at line 105, today the current date used for the
treatment duration. An exception escaping the effectiveness analysis
escapes the whole call (none). -/
noncomputable def comprehensive_patient_analysis (now : ℕ) (today : ℕ)
    (patientExists : Bool) (pid : ℕ) (ss : List SymptomEntry) (ms : List MoodEntry)
    (acts : List ActivityEntry) (cas : List AssessmentEntry)
    (plans : List TreatmentPlan) : Option ComprehensiveResult :=
  if !patientExists then some (.error "Patient not found")
  else
    match analyze_treatment_effectiveness today plans ss ms with
    | none => none
    | some eff =>
      some (.analysis {
        patient_id := pid,
        analysis_timestamp := now,
        data_period_days := 90,
        risk_assessment := comprehensive_risk_assessment ss ms acts cas,
        treatment_effectiveness := eff })

/-- Clock-free view of the analyzed effectiveness dictionary (drops the
treatment duration, which is derived from the current date). -/
structure EffCore where
  current_treatment_id : ℕ
  effectiveness_score : ℝ
  m_symptom_improvement : Option ℝ
  m_mood_stability : Option ℝ
  adherence_rate : ℚ
  patient_reported_effectiveness : ℚ

/-- Clock-free view of an effectiveness result. -/
inductive EffResultCore where
  | noTreatments
  | analyzed (e : EffCore)

/-- Projection dropping the clock-derived treatment duration. -/
def stripEffClock : EffResult → EffResultCore
  | .noTreatments => .noTreatments
  | .analyzed e => .analyzed {
      current_treatment_id := e.current_treatment_id,
      effectiveness_score := e.effectiveness_score,
      m_symptom_improvement := e.m_symptom_improvement,
      m_mood_stability := e.m_mood_stability,
      adherence_rate := e.adherence_rate,
      patient_reported_effectiveness := e.patient_reported_effectiveness }

/-- Clock-free view of the comprehensive analysis: every embedded field
except the wall-clock timestamp and the clock-derived treatment
duration. -/
structure ComprehensiveCore where
  patient_id : ℕ
  data_period_days : ℕ
  risk_assessment : RiskOut
  treatment_effectiveness : EffResultCore

/-- Clock-free view of a comprehensive result. -/
inductive ComprehensiveResultCore where
  | error (msg : String)
  | analysis (a : ComprehensiveCore)

/-- Projection dropping the analysis timestamp and the treatment
duration. -/
def stripClock : ComprehensiveResult → ComprehensiveResultCore
  | .error msg => .error msg
  | .analysis a => .analysis {
      patient_id := a.patient_id,
      data_period_days := a.data_period_days,
      risk_assessment := a.risk_assessment,
      treatment_effectiveness := stripEffClock a.treatment_effectiveness }

/-! Helper lemmas shared by the claim theorems. -/

theorem lastN_length (n : ℕ) (xs : List α) : (lastN n xs).length = min n xs.length := by
  simp only [lastN, List.length_drop]
  omega

theorem dropLastN_eq_nil (n : ℕ) (xs : List α) (h : xs.length ≤ n) : dropLastN n xs = [] := by
  have hz : xs.length - n = 0 := by omega
  rw [dropLastN, hz, List.take_zero]

theorem varPop_nonneg (xs : List ℚ) : 0 ≤ varPop xs := by
  unfold varPop meanQ
  apply div_nonneg
  · apply List.sum_nonneg
    intro q hq
    obtain ⟨v, _, rfl⟩ := List.mem_map.mp hq
    positivity
  · positivity

theorem riskWindowFactor_bounds (p : α → Bool) (xs : List α) (v : ℚ)
    (h : riskWindowFactor p xs = some v) : 0 ≤ v ∧ v ≤ 1 := by
  unfold riskWindowFactor at h
  split at h
  · exact absurd h (by simp)
  · rw [Option.some.injEq] at h
    subst h
    constructor
    · split
      · exact le_refl 0
      · positivity
    · split
      · norm_num
      · have hlen : ((lastN 7 xs).filter p).length ≤ 7 := by
          have h1 := List.length_filter_le p (lastN 7 xs)
          have h2 := lastN_length 7 xs
          omega
        rw [div_le_one (by norm_num)]
        exact_mod_cast hlen

theorem riskClinFactor_bounds (cas : List AssessmentEntry) (v : ℚ)
    (h : riskClinFactor cas = some v) : 0 ≤ v ∧ v ≤ 8/10 := by
  unfold riskClinFactor at h
  split at h
  · exact absurd h (by simp)
  · split at h
    · rw [Option.some.injEq] at h
      subst h
      split <;> norm_num
    · exact absurd h (by simp)

theorem riskOverall_bounds (ss : List SymptomEntry) (ms : List MoodEntry)
    (cas : List AssessmentEntry) :
    0 ≤ riskOverall ss ms cas ∧ riskOverall ss ms cas ≤ 79/100 := by
  unfold riskOverall
  have hsym : 0 ≤ ((riskSymFactor ss).elim 0 fun v => v * (3/10)) ∧
      ((riskSymFactor ss).elim 0 fun v => v * (3/10)) ≤ 3/10 := by
    cases hs : riskSymFactor ss with
    | none => constructor <;> norm_num [Option.elim]
    | some v =>
      have hb := riskWindowFactor_bounds _ _ _ hs
      simp only [Option.elim]
      constructor <;> nlinarith [hb.1, hb.2]
  have hmood : 0 ≤ ((riskMoodFactor ms).elim 0 fun v => v * (1/4)) ∧
      ((riskMoodFactor ms).elim 0 fun v => v * (1/4)) ≤ 1/4 := by
    cases hs : riskMoodFactor ms with
    | none => constructor <;> norm_num [Option.elim]
    | some v =>
      have hb := riskWindowFactor_bounds _ _ _ hs
      simp only [Option.elim]
      constructor <;> nlinarith [hb.1, hb.2]
  have hclin : 0 ≤ ((riskClinFactor cas).elim 0 fun v => v * (3/10)) ∧
      ((riskClinFactor cas).elim 0 fun v => v * (3/10)) ≤ 24/100 := by
    cases hs : riskClinFactor cas with
    | none => constructor <;> norm_num [Option.elim]
    | some v =>
      have hb := riskClinFactor_bounds _ _ hs
      simp only [Option.elim]
      constructor <;> nlinarith [hb.1, hb.2]
  constructor
  · linarith [hsym.1, hmood.1, hclin.1]
  · linarith [hsym.2, hmood.2, hclin.2]

/-- Claim C5: for all inputs (in particular all valid 1..10 severities and
mood scores) the overall risk score lies in the interval from 0 to 1, the
risk level is one of low, moderate and high, and the level is low exactly
when the score is at most 0.4, moderate exactly when it lies in (0.4, 0.7],
and high exactly when it exceeds 0.7. -/
theorem claim_C5_risk_range_and_level (ss : List SymptomEntry) (ms : List MoodEntry)
    (acts : List ActivityEntry) (cas : List AssessmentEntry) :
    (0 ≤ (comprehensive_risk_assessment ss ms acts cas).overall_risk_score ∧
      (comprehensive_risk_assessment ss ms acts cas).overall_risk_score ≤ 1) ∧
    ((comprehensive_risk_assessment ss ms acts cas).risk_level = "low" ∨
      (comprehensive_risk_assessment ss ms acts cas).risk_level = "moderate" ∨
      (comprehensive_risk_assessment ss ms acts cas).risk_level = "high") ∧
    ((comprehensive_risk_assessment ss ms acts cas).risk_level = "low" ↔
      (comprehensive_risk_assessment ss ms acts cas).overall_risk_score ≤ 2/5) ∧
    ((comprehensive_risk_assessment ss ms acts cas).risk_level = "moderate" ↔
      (2/5 < (comprehensive_risk_assessment ss ms acts cas).overall_risk_score ∧
        (comprehensive_risk_assessment ss ms acts cas).overall_risk_score ≤ 7/10)) ∧
    ((comprehensive_risk_assessment ss ms acts cas).risk_level = "high" ↔
      7/10 < (comprehensive_risk_assessment ss ms acts cas).overall_risk_score) := by
  have hb := riskOverall_bounds ss ms cas
  unfold comprehensive_risk_assessment
  dsimp only
  refine ⟨⟨hb.1, by linarith [hb.2]⟩, ?_⟩
  by_cases h1 : 7/10 < riskOverall ss ms cas
  · rw [if_pos h1]
    refine ⟨Or.inr (Or.inr rfl), ?_, ?_, ?_⟩
    · exact ⟨fun h => absurd h (by decide), fun h => by linarith⟩
    · exact ⟨fun h => absurd h (by decide), fun h => by linarith [h.2]⟩
    · exact ⟨fun _ => h1, fun _ => rfl⟩
  · by_cases h2 : 2/5 < riskOverall ss ms cas
    · rw [if_neg h1, if_pos h2]
      refine ⟨Or.inr (Or.inl rfl), ?_, ?_, ?_⟩
      · exact ⟨fun h => absurd h (by decide), fun h => by linarith⟩
      · exact ⟨fun _ => ⟨h2, by linarith [not_lt.mp h1]⟩, fun _ => rfl⟩
      · exact ⟨fun h => absurd h (by decide), fun h => absurd h h1⟩
    · rw [if_neg h1, if_neg h2]
      refine ⟨Or.inl rfl, ?_, ?_, ?_⟩
      · exact ⟨fun _ => by linarith [not_lt.mp h2], fun _ => rfl⟩
      · exact ⟨fun h => absurd h (by decide), fun h => absurd h.1 h2⟩
      · exact ⟨fun h => absurd h (by decide), fun h => absurd h h1⟩

/-- Claim C9: with 1 to 13 symptom entries the older comparison window
count is the literal 0, so the frequency condition (recent count above 1.5
times the older count) always holds and increasing_symptom_frequency is
always reported, whatever the entries contain. -/
theorem claim_C9_frequency_always_flagged (ss : List SymptomEntry) (ms : List MoodEntry)
    (h1 : 1 ≤ ss.length) (h2 : ss.length ≤ 13) :
    "increasing_symptom_frequency" ∈ identify_risk_factors ss ms := by
  have hold : olderWindowCount ss = 0 := by
    unfold olderWindowCount
    rw [if_neg (by omega)]
  have hrec : 1 ≤ (lastN 7 ss).length := by
    have := lastN_length 7 ss
    omega
  have hc : olderWindowCount ss * 3 < (lastN 7 ss).length * 2 := by
    rw [hold]
    omega
  unfold identify_risk_factors
  refine List.mem_append_right _ ?_
  rw [if_pos hc]
  exact List.mem_singleton_self _

/-- Concrete symptom record used in witnesses and counterexamples. -/
def mkSymptom (sev : ℚ) (t : ℕ) : SymptomEntry :=
  { symptom_name := "headache", severity := sev, created_at := t }

/-- Concrete mood record used in witnesses and counterexamples. -/
def mkMood (sc : ℚ) (st en sl : Option ℚ) (d : Option ℕ) : MoodEntry :=
  { mood_score := sc, energy_level := en, stress_level := st,
    sleep_quality := sl, date_recorded := d }

/-- Concrete activity record used in witnesses and counterexamples. -/
def mkActivity (dur : Option ℚ) (c : Bool) (d : Option ℕ) : ActivityEntry :=
  { activity_type := "exercise", duration := dur, completed := c, date_recorded := d }

/-- Witness for claim C9 at a concrete three-entry symptom list. -/
theorem claim_C9_witness :
    "increasing_symptom_frequency" ∈
      identify_risk_factors [mkSymptom 5 0, mkSymptom 5 1, mkSymptom 5 2] [] :=
  claim_C9_frequency_always_flagged _ [] (by decide) (by decide)

/-- Windowed delta as worded in the specification and the claims: split the
value series into a recent window (the last 7 values, or the last 3 when
fewer than 7 exist) and the older remainder, and subtract the older mean
from the recent mean; the delta is 0 when the remainder is empty (no older
baseline exists). Written from the specification text, to be compared
against the source-derived symptomChange and moodChange. -/
def windowedDelta (vals : List ℚ) : ℚ :=
  if (dropLastN (windowSize vals.length) vals).isEmpty then 0
  else meanQ (lastN (windowSize vals.length) vals) -
       meanQ (dropLastN (windowSize vals.length) vals)

/-- Recent-window mean as worded in the specification. -/
def windowedRecentMean (vals : List ℚ) : ℚ :=
  meanQ (lastN (windowSize vals.length) vals)

theorem lastN_map (f : α → β) (n : ℕ) (xs : List α) :
    lastN n (xs.map f) = (xs |> lastN n).map f := by
  simp only [lastN, List.length_map, List.map_drop]

theorem dropLastN_map (f : α → β) (n : ℕ) (xs : List α) :
    dropLastN n (xs.map f) = (xs |> dropLastN n).map f := by
  simp only [dropLastN, List.length_map, List.map_take]

theorem isEmpty_map (f : α → β) (l : List α) : (l.map f).isEmpty = l.isEmpty := by
  cases l <;> simp

theorem symptomChange_eq_windowedDelta (ss : List SymptomEntry) :
    symptomChange ss = windowedDelta (ss.map (·.severity)) := by
  unfold symptomChange windowedDelta symptomRecentAvg symptomRecentWindow symptomOlderWindow
  rw [List.length_map, lastN_map, dropLastN_map, isEmpty_map]
  by_cases hemp : (dropLastN (windowSize ss.length) ss).isEmpty
  · rw [if_pos hemp, if_pos hemp, sub_self]
  · rw [if_neg hemp, if_neg hemp]

theorem symptomRecentAvg_eq (ss : List SymptomEntry) :
    symptomRecentAvg ss = windowedRecentMean (ss.map (·.severity)) := by
  unfold symptomRecentAvg windowedRecentMean symptomRecentWindow
  rw [List.length_map, lastN_map]

theorem moodChange_eq_windowedDelta (ms : List MoodEntry) :
    moodChange ms = windowedDelta (ms.map (·.mood_score)) := by
  unfold moodChange windowedDelta moodRecentAvg moodRecentWindow moodOlderWindow
  rw [List.length_map, lastN_map, dropLastN_map, isEmpty_map]
  by_cases hemp : (dropLastN (windowSize ms.length) ms).isEmpty
  · rw [if_pos hemp, if_pos hemp, sub_self]
  · rw [if_neg hemp, if_neg hemp]

/-- Claim C3 (amended): the two windowed-delta estimators return the
insufficient_data dictionary with confidence 0 below 3 entries; at 3 or
more entries the symptom estimator always returns, classifying the
windowed delta of the claim against the thresholds 1 and -1 with
confidence min(0.9, n/20); the mood estimator classifies the same delta
with its labels improving and declining and confidence min(0.9, n/15) on
every call that returns a result (it raises a ZeroDivisionError instead of
returning when all recent stress levels, or all recent energy levels, are
missing). -/
theorem claim_C3_windowed_trend_contract :
    (∀ ss : List SymptomEntry, ss.length < 3 →
      analyze_symptom_trend ss =
        { trend := "insufficient_data", severity_change := none,
          recent_average := none, confidence := 0 }) ∧
    (∀ ms : List MoodEntry, ms.length < 3 →
      analyze_mood_trend ms =
        some { trend := "insufficient_data", mood_change := none,
               recent_average := none, recent_stress_average := none,
               recent_energy_average := none, confidence := 0 }) ∧
    (∀ ss : List SymptomEntry, 3 ≤ ss.length →
      analyze_symptom_trend ss =
        { trend :=
            if 1 < windowedDelta (ss.map (·.severity)) then "increasing"
            else if windowedDelta (ss.map (·.severity)) < -1 then "decreasing"
            else "stable",
          severity_change := some (windowedDelta (ss.map (·.severity))),
          recent_average := some (windowedRecentMean (ss.map (·.severity))),
          confidence := min (9/10) ((ss.length : ℚ) / 20) }) ∧
    (∀ (ms : List MoodEntry) (r : MoodTrendOut), 3 ≤ ms.length →
      analyze_mood_trend ms = some r →
      r.trend =
        (if 1 < windowedDelta (ms.map (·.mood_score)) then "improving"
         else if windowedDelta (ms.map (·.mood_score)) < -1 then "declining"
         else "stable") ∧
      r.mood_change = some (windowedDelta (ms.map (·.mood_score))) ∧
      r.confidence = min (9/10) ((ms.length : ℚ) / 15)) := by
  refine ⟨?_, ?_, ?_, ?_⟩
  · intro ss h
    unfold analyze_symptom_trend
    rw [if_pos h]
  · intro ms h
    unfold analyze_mood_trend
    rw [if_pos h]
  · intro ss h
    unfold analyze_symptom_trend
    rw [if_neg (by omega), symptomChange_eq_windowedDelta, symptomRecentAvg_eq]
  · intro ms r h hr
    unfold analyze_mood_trend at hr
    rw [if_neg (by omega)] at hr
    by_cases hstress : (moodRecentStressVals ms).isEmpty
    · rw [if_pos hstress] at hr
      exact absurd hr (by simp)
    · rw [if_neg hstress] at hr
      by_cases henergy : (moodRecentEnergyVals ms).isEmpty
      · rw [if_pos henergy] at hr
        exact absurd hr (by simp)
      · rw [if_neg henergy, Option.some.injEq] at hr
        subst hr
        exact ⟨by rw [moodChange_eq_windowedDelta], by rw [moodChange_eq_windowedDelta], rfl⟩

/-- Concrete four-entry symptom list for the claim C3 witness. -/
def c3w_ss : List SymptomEntry :=
  [mkSymptom 2 0, mkSymptom 2 1, mkSymptom 9 2, mkSymptom 9 3]

/-- Concrete three-entry mood list (with stress and energy levels present)
for the claim C3 witness. -/
def c3w_ms : List MoodEntry :=
  [mkMood 2 (some 5) (some 5) none (some 1), mkMood 8 (some 5) (some 5) none (some 2),
   mkMood 8 (some 5) (some 5) none (some 3)]

unseal Rat.add Rat.mul Rat.inv Rat.sub in
/-- Witness for claim C3: the contract instantiated at concrete symptom and
mood series. -/
theorem claim_C3_witness :
    (analyze_symptom_trend c3w_ss =
      { trend :=
          if 1 < windowedDelta (c3w_ss.map (·.severity)) then "increasing"
          else if windowedDelta (c3w_ss.map (·.severity)) < -1 then "decreasing"
          else "stable",
        severity_change := some (windowedDelta (c3w_ss.map (·.severity))),
        recent_average := some (windowedRecentMean (c3w_ss.map (·.severity))),
        confidence := min (9/10) ((c3w_ss.length : ℚ) / 20) }) ∧
    ((⟨"stable", some 0, some 6, some 5, some 5, 1/5⟩ : MoodTrendOut).trend =
        (if 1 < windowedDelta (c3w_ms.map (·.mood_score)) then "improving"
         else if windowedDelta (c3w_ms.map (·.mood_score)) < -1 then "declining"
         else "stable") ∧
      (⟨"stable", some 0, some 6, some 5, some 5, 1/5⟩ : MoodTrendOut).mood_change =
        some (windowedDelta (c3w_ms.map (·.mood_score))) ∧
      (⟨"stable", some 0, some 6, some 5, some 5, 1/5⟩ : MoodTrendOut).confidence =
        min (9/10) ((c3w_ms.length : ℚ) / 15)) :=
  ⟨claim_C3_windowed_trend_contract.2.2.1 c3w_ss (by decide),
   claim_C3_windowed_trend_contract.2.2.2 c3w_ms _ (by decide) (by decide)⟩

/-- Concrete three-entry mood list with no stress levels: the mood trend
computation divides by zero. -/
def c3_crash_ms : List MoodEntry :=
  [mkMood 2 none none none (some 1), mkMood 4 none none none (some 2),
   mkMood 6 none none none (some 3)]

/-- Counterexample to claim C3 as stated: a series with at least 3 entries
on which the mood estimator raises (returns no dictionary at all) instead
of returning a trend with confidence min(0.9, n/15). -/
theorem claim_C3_counterexample :
    analyze_mood_trend c3_crash_ms = none ∧ 3 ≤ c3_crash_ms.length := by decide

/-- Claim C10 (amended): with exactly 3 entries the older window is empty,
so the delta defaults to 0 and the symptom estimator always reports a
stable trend with change 0; the mood estimator does the same on every call
that returns (it raises when all recent stress or energy levels are
missing). -/
theorem claim_C10_three_entries_stable :
    (∀ ss : List SymptomEntry, ss.length = 3 →
      (analyze_symptom_trend ss).trend = "stable" ∧
      (analyze_symptom_trend ss).severity_change = some 0) ∧
    (∀ (ms : List MoodEntry) (r : MoodTrendOut), ms.length = 3 →
      analyze_mood_trend ms = some r →
      r.trend = "stable" ∧ r.mood_change = some 0) := by
  have hsym : ∀ ss : List SymptomEntry, ss.length = 3 → symptomChange ss = 0 := by
    intro ss h
    unfold symptomChange symptomOlderWindow
    rw [dropLastN_eq_nil _ _ (by rw [h]; decide)]
    simp
  have hmood : ∀ ms : List MoodEntry, ms.length = 3 → moodChange ms = 0 := by
    intro ms h
    unfold moodChange moodOlderWindow
    rw [dropLastN_eq_nil _ _ (by rw [h]; decide)]
    simp
  constructor
  · intro ss h
    unfold analyze_symptom_trend
    rw [if_neg (by omega), hsym ss h]
    norm_num
  · intro ms r h hr
    unfold analyze_mood_trend at hr
    rw [if_neg (by omega)] at hr
    by_cases hstress : (moodRecentStressVals ms).isEmpty
    · rw [if_pos hstress] at hr
      exact absurd hr (by simp)
    · rw [if_neg hstress] at hr
      by_cases henergy : (moodRecentEnergyVals ms).isEmpty
      · rw [if_pos henergy] at hr
        exact absurd hr (by simp)
      · rw [if_neg henergy, Option.some.injEq] at hr
        subst hr
        rw [hmood ms h]
        norm_num

/-- Concrete three-entry mood list (stress and energy present, spread-out
scores) for the claim C10 witness. -/
def c10w_ms : List MoodEntry :=
  [mkMood 1 (some 4) (some 6) none (some 1), mkMood 5 (some 4) (some 6) none (some 2),
   mkMood 9 (some 4) (some 6) none (some 3)]

unseal Rat.add Rat.mul Rat.inv Rat.sub in
/-- Witness for claim C10 at concrete three-entry series with markedly
non-constant values. -/
theorem claim_C10_witness :
    ((analyze_symptom_trend [mkSymptom 1 0, mkSymptom 5 1, mkSymptom 9 2]).trend = "stable" ∧
      (analyze_symptom_trend [mkSymptom 1 0, mkSymptom 5 1, mkSymptom 9 2]).severity_change =
        some 0) ∧
    ((⟨"stable", some 0, some 5, some 4, some 6, 1/5⟩ : MoodTrendOut).trend = "stable" ∧
      (⟨"stable", some 0, some 5, some 4, some 6, 1/5⟩ : MoodTrendOut).mood_change = some 0) :=
  ⟨claim_C10_three_entries_stable.1 _ (by decide),
   claim_C10_three_entries_stable.2 c10w_ms _ (by decide) (by decide)⟩

/-- Concrete three-entry mood list with no stress levels and yet other
values, for the claim C10 counterexample. -/
def c10_crash_ms : List MoodEntry :=
  [mkMood 1 none none none (some 4), mkMood 2 none none none (some 5),
   mkMood 3 none none none (some 6)]

/-- Counterexample to claim C10 as stated: a three-entry mood series on
which the estimator raises (no stable result is returned). -/
theorem claim_C10_counterexample :
    analyze_mood_trend c10_crash_ms = none ∧ c10_crash_ms.length = 3 := by decide

/-- Mood list on which the orchestrator crashes: three entries, none with a
stress or energy level. -/
def c1_crash_ms : List MoodEntry :=
  [mkMood 5 none none none (some 10), mkMood 6 none none none (some 11),
   mkMood 7 none none none (some 12)]

/-- Claim C1 evaluated at the failing input: the patient exists, the mood
list has three entries that all lack the optional stress and energy levels,
and analyze_patient_progress raises the ZeroDivisionError of the mood trend
(lines 455-456) instead of substituting an insufficient-data sub-result and
returning a partial analysis. -/
theorem claim_C1_crash_evaluation :
    analyze_patient_progress true 1 [] c1_crash_ms [] = none ∧
    analyze_mood_trend c1_crash_ms = none := by decide

/-- Claim C7 (amended): whenever the underlying analysis completes, a
patient with fewer than 5 symptom entries or fewer than 5 mood entries gets
exactly the single data-collection suggestion (type data_collection, title
Increase Data Collection, confidence 0.9, priority medium) and nothing
else. -/
theorem claim_C7_single_data_collection_suggestion (pid : ℕ)
    (ss : List SymptomEntry) (ms : List MoodEntry) (acts : List ActivityEntry)
    (hsome : (analyze_patient_progress true pid ss ms acts).isSome)
    (hcount : ss.length < minimum_data_points ∨ ms.length < minimum_data_points) :
    generate_treatment_suggestions true pid ss ms acts =
      some [data_collection_suggestion] := by
  have hfalse : (decide (minimum_data_points ≤ ss.length) &&
      decide (minimum_data_points ≤ ms.length)) = false := by
    rcases hcount with h | h
    · exact Bool.and_eq_false_iff.mpr (Or.inl (decide_eq_false (by omega)))
    · exact Bool.and_eq_false_iff.mpr (Or.inr (decide_eq_false (by omega)))
  unfold generate_treatment_suggestions analyze_patient_progress
  unfold analyze_patient_progress at hsome
  simp only [Bool.not_true, Bool.false_eq_true, if_false] at hsome ⊢
  cases hmt : analyze_mood_trend ms with
  | none =>
    rw [hmt] at hsome
    exact absurd hsome (by simp)
  | some mt =>
    dsimp only
    rw [hfalse]
    rfl

/-- Witness for claim C7 at empty record lists (the analysis completes via
the insufficient-data mood branch). -/
theorem claim_C7_witness :
    generate_treatment_suggestions true 1 [] [] [] = some [data_collection_suggestion] :=
  claim_C7_single_data_collection_suggestion 1 [] [] [] (by decide) (by decide)

/-- Mood list with three no-stress entries for the claim C7
counterexample. -/
def c7_crash_ms : List MoodEntry :=
  [mkMood 7 none none none (some 20), mkMood 7 none none none (some 21),
   mkMood 7 none none none (some 22)]

/-- Counterexample to claim C7 as stated: a patient with fewer than 5 mood
entries (and no symptoms) for whom the engine raises instead of returning
the single data-collection suggestion, because the mood-trend computation
inside the analysis divides by zero first. -/
theorem claim_C7_counterexample :
    generate_treatment_suggestions true 2 [] c7_crash_ms [] = none ∧
    c7_crash_ms.length < minimum_data_points := by decide

theorem suggest_general_improvements_append (xs ys : List String) :
    suggest_general_improvements (xs ++ ys) =
      suggest_general_improvements xs ++ suggest_general_improvements ys := by
  unfold suggest_general_improvements
  exact List.filterMap_append xs ys _

/-- Output of the general-improvement step on the areas produced by
identify_improvement_areas: one stress suggestion when stress_management
was detected, and nothing otherwise (in particular nothing for the
sleep_improvement and increase_activity_tracking areas); the confidence
filter (0.7 at least 0.6) and the truncation to 5 do not change this. -/
theorem general_after_identify (ss : List SymptomEntry) (ms : List MoodEntry)
    (acts : List ActivityEntry) :
    ((suggest_general_improvements (identify_improvement_areas ss ms acts)).filter
        (fun s => confidence_threshold ≤ s.confidence_score)).take 5 =
      (if "stress_management" ∈ identify_improvement_areas ss ms acts
       then [stress_suggestion] else []) := by
  unfold identify_improvement_areas
  rw [suggest_general_improvements_append, suggest_general_improvements_append]
  split_ifs with h1 h2 h3 <;>
    simp_all [suggest_general_improvements, stress_suggestion, confidence_threshold] <;>
    norm_num

/-- Claim C8 (amended): when rule steps 2-5 produce no suggestions, the
engine emits the general-improvement suggestion for the stress_management
area when it was detected and nothing at all for the sleep_improvement and
increase_activity_tracking areas (the source loop only has a branch for
stress_management). -/
theorem claim_C8_general_improvements (pid : ℕ) (ss : List SymptomEntry)
    (ms : List MoodEntry) (acts : List ActivityEntry) (an : ProgressAnalysis)
    (han : analyze_patient_progress true pid ss ms acts = some (.analysis an))
    (hsuff : an.sufficient = true)
    (hrules : rule_suggestions an = []) :
    generate_treatment_suggestions true pid ss ms acts =
      some (if "stress_management" ∈ an.improvement_areas
            then [stress_suggestion] else []) := by
  have harea : an.improvement_areas = identify_improvement_areas ss ms acts := by
    unfold analyze_patient_progress at han
    simp only [Bool.not_true, Bool.false_eq_true, if_false] at han
    cases hmt : analyze_mood_trend ms with
    | none =>
      rw [hmt] at han
      exact absurd han (by simp)
    | some mt =>
      rw [hmt] at han
      simp only [Option.some.injEq, ProgressResult.analysis.injEq] at han
      rw [← han]
  unfold generate_treatment_suggestions
  rw [han]
  dsimp only
  rw [hsuff]
  simp only [Bool.not_true, Bool.false_eq_true, if_false, hrules, List.isEmpty_nil, if_true]
  rw [harea, general_after_identify]

/-- Fourteen constant-severity symptom entries: enough data, no severity
peaks, and a stable trend with an older window of equal size. -/
def c8_ss : List SymptomEntry :=
  [mkSymptom 5 0, mkSymptom 5 1, mkSymptom 5 2, mkSymptom 5 3, mkSymptom 5 4,
   mkSymptom 5 5, mkSymptom 5 6, mkSymptom 5 7, mkSymptom 5 8, mkSymptom 5 9,
   mkSymptom 5 10, mkSymptom 5 11, mkSymptom 5 12, mkSymptom 5 13]

/-- Five constant moods with moderate stress and energy and poor sleep:
stable trend, no low-mood risk, sleep_improvement detected. -/
def c8_ms : List MoodEntry :=
  [mkMood 6 (some 5) (some 5) (some 3) (some 1), mkMood 6 (some 5) (some 5) (some 3) (some 2),
   mkMood 6 (some 5) (some 5) (some 3) (some 3), mkMood 6 (some 5) (some 5) (some 3) (some 4),
   mkMood 6 (some 5) (some 5) (some 3) (some 5)]

/-- Three completed activities on days that no mood entry shares, so the
correlation is insufficient and the activity-tracking area stays quiet. -/
def c8_acts : List ActivityEntry :=
  [mkActivity (some 10) true (some 100), mkActivity (some 10) true (some 101),
   mkActivity (some 10) true (some 102)]

set_option maxRecDepth 100000 in
unseal Rat.add Rat.mul Rat.inv Rat.sub in
/-- Counterexample to claim C8 as stated: rule steps 2-5 produce nothing and
the only detected improvement area is sleep_improvement, yet the engine
emits no suggestion at all for it. -/
theorem claim_C8_counterexample :
    generate_treatment_suggestions true 3 c8_ss c8_ms c8_acts = some [] ∧
    "sleep_improvement" ∈ identify_improvement_areas c8_ss c8_ms c8_acts := by decide

/-- Five constant moods with high stress: stable trend, stress_management
detected. -/
def c8w_ms : List MoodEntry :=
  [mkMood 6 (some 9) (some 5) none (some 1), mkMood 6 (some 9) (some 5) none (some 2),
   mkMood 6 (some 9) (some 5) none (some 3), mkMood 6 (some 9) (some 5) none (some 4),
   mkMood 6 (some 9) (some 5) none (some 5)]

/-- Analysis record computed by analyze_patient_progress on the witness
input of claim C8. -/
def c8w_an : ProgressAnalysis :=
  { patient_id := 4, data_period_days := 30,
    symptom_trend := ⟨"stable", some 0, some 5, 7/10⟩,
    mood_trend := ⟨"stable", some 0, some 6, some 9, some 5, 1/3⟩,
    activity_correlation := ⟨0, "insufficient_data", 0⟩,
    risk_factors := [],
    improvement_areas := ["stress_management"],
    symptoms_count := 14, moods_count := 5, activities_count := 3,
    sufficient := true }

set_option maxRecDepth 100000 in
unseal Rat.add Rat.mul Rat.inv Rat.sub in
/-- Witness for claim C8: with steps 2-5 empty and stress_management
detected, exactly the stress suggestion is returned. -/
theorem claim_C8_witness :
    generate_treatment_suggestions true 4 c8_ss c8w_ms c8_acts =
      some [stress_suggestion] := by
  have h := claim_C8_general_improvements 4 c8_ss c8w_ms c8_acts c8w_an
    (by decide) (by decide) (by decide)
  rw [h]
  decide

/-! Bridging lemmas: the exact rational comparisons used in the correlation
embedding are equivalent to the float comparisons of the source on the real
Pearson coefficient c / sqrt v. -/

theorem one_tenth_lt_div_sqrt (c v : ℝ) (hv : 0 < v) :
    1/10 < c / Real.sqrt v ↔ 0 < c ∧ v < 100 * c^2 := by
  have hs : 0 < Real.sqrt v := Real.sqrt_pos.mpr hv
  rw [lt_div_iff₀ hs]
  constructor
  · intro h
    have hc : 0 < c := lt_of_le_of_lt (by positivity) h
    refine ⟨hc, ?_⟩
    have h10 : Real.sqrt v < 10 * c := by linarith
    have hsq : Real.sqrt v * Real.sqrt v < (10*c) * (10*c) :=
      mul_lt_mul'' h10 h10 (Real.sqrt_nonneg v) (Real.sqrt_nonneg v)
    rw [Real.mul_self_sqrt hv.le] at hsq
    nlinarith
  · rintro ⟨hc, hlt⟩
    have h1 : v < (10*c)^2 := by nlinarith
    have h2 : Real.sqrt v < Real.sqrt ((10*c)^2) := Real.sqrt_lt_sqrt hv.le h1
    rw [Real.sqrt_sq (by positivity)] at h2
    linarith

theorem div_sqrt_lt_neg_one_tenth (c v : ℝ) (hv : 0 < v) :
    c / Real.sqrt v < -(1/10) ↔ c < 0 ∧ v < 100 * c^2 := by
  constructor
  · intro hlt
    have h1 : 1/10 < -c / Real.sqrt v := by
      rw [neg_div]
      linarith
    obtain ⟨ha, hb⟩ := (one_tenth_lt_div_sqrt (-c) v hv).mp h1
    exact ⟨by linarith, by nlinarith⟩
  · rintro ⟨hc, hb⟩
    have h1 := (one_tenth_lt_div_sqrt (-c) v hv).mpr ⟨by linarith, by nlinarith⟩
    rw [neg_div] at h1
    linarith

theorem three_tenths_le_abs_div_sqrt (c v : ℝ) (hv : 0 < v) :
    3/10 ≤ |c / Real.sqrt v| ↔ 9 * v ≤ 100 * c^2 := by
  have hs : 0 < Real.sqrt v := Real.sqrt_pos.mpr hv
  rw [abs_div, abs_of_pos hs, le_div_iff₀ hs]
  constructor
  · intro h
    have hsq : (3/10 * Real.sqrt v) * (3/10 * Real.sqrt v) ≤ |c| * |c| :=
      mul_self_le_mul_self (by positivity) h
    rw [abs_mul_abs_self] at hsq
    have hv2 := Real.mul_self_sqrt hv.le
    nlinarith
  · intro h
    have habs : (3/10 * Real.sqrt v)^2 ≤ |c|^2 := by
      rw [mul_pow, Real.sq_sqrt hv.le, sq_abs]
      nlinarith
    have := le_of_pow_le_pow_left₀ two_ne_zero (abs_nonneg c) habs
    linarith

theorem div_sqrt_sq_eq (c v : ℝ) (hv : 0 < v) : (c / Real.sqrt v)^2 = c^2 / v := by
  rw [div_pow, Real.sq_sqrt hv.le]

theorem commonDays_length_le_left (as : List ActivityEntry) (ms : List MoodEntry) :
    (commonDays as ms).length ≤ as.length := by
  unfold commonDays activityDays
  rw [List.length_insertionSort]
  calc ((as.filterMap (·.date_recorded)).dedup.filter _).length
      ≤ (as.filterMap (·.date_recorded)).dedup.length := List.length_filter_le _ _
    _ ≤ (as.filterMap (·.date_recorded)).length :=
        (List.dedup_sublist _).length_le
    _ ≤ as.length := List.length_filterMap_le _ _

theorem commonDays_nodup (as : List ActivityEntry) (ms : List MoodEntry) :
    (commonDays as ms).Nodup := by
  unfold commonDays
  exact ((List.perm_insertionSort _ _).nodup_iff).mpr ((List.nodup_dedup _).filter _)

theorem commonDays_subset_moodDays (as : List ActivityEntry) (ms : List MoodEntry) :
    ∀ d ∈ commonDays as ms, d ∈ moodDays ms := by
  intro d hd
  have hd2 := (List.perm_insertionSort (· ≤ ·)
    ((activityDays as).filter (fun d => d ∈ moodDays ms))).mem_iff.mp hd
  have := List.of_mem_filter hd2
  exact of_decide_eq_true this

theorem commonDays_length_le_right (as : List ActivityEntry) (ms : List MoodEntry) :
    (commonDays as ms).length ≤ ms.length := by
  have h1 : (commonDays as ms).toFinset.card = (commonDays as ms).length :=
    List.toFinset_card_of_nodup (commonDays_nodup as ms)
  have h2 : (commonDays as ms).toFinset ⊆ (moodDays ms).toFinset := by
    intro d hd
    rw [List.mem_toFinset] at hd ⊢
    exact commonDays_subset_moodDays as ms d hd
  calc (commonDays as ms).length
      = (commonDays as ms).toFinset.card := h1.symm
    _ ≤ (moodDays ms).toFinset.card := Finset.card_le_card h2
    _ ≤ (moodDays ms).length := List.toFinset_card_le _
    _ ≤ (ms.filterMap (·.date_recorded)).length := (List.dedup_sublist _).length_le
    _ ≤ ms.length := List.length_filterMap_le _ _

/-- Activity scenario input of the specification: values 10, 20, 30, 40, 50
on five consecutive days. -/
def c4_acts : List ActivityEntry :=
  [mkActivity (some 10) true (some 1), mkActivity (some 20) true (some 2),
   mkActivity (some 30) true (some 3), mkActivity (some 40) true (some 4),
   mkActivity (some 50) true (some 5)]

/-- Mood scenario input of the specification: scores 2, 4, 6, 8, 10 on the
same five days. -/
def c4_ms : List MoodEntry :=
  [mkMood 2 none none none (some 1), mkMood 4 none none none (some 2),
   mkMood 6 none none none (some 3), mkMood 8 none none none (some 4),
   mkMood 10 none none none (some 5)]

set_option maxRecDepth 100000 in
set_option maxHeartbeats 1000000 in
unseal Rat.add Rat.mul Rat.inv Rat.sub in
/-- Claim C4: the correlation analyzer returns the insufficient result below
3 common days; the none/0.4 result when either aligned vector has zero
variance; and otherwise classifies the real Pearson coefficient r of the
aligned vectors: type positive exactly when r exceeds 0.1, negative exactly
when r is below -0.1, confidence 0.6 exactly when the absolute value of r
is at least 0.3 and 0.4 otherwise, with the stored strength square equal to
r squared; and on the five-day scenario with activity values 10..50 and
mood values 2..10 the result is strength 1 (r = 1), type positive,
confidence 0.6. -/
theorem claim_C4_correlation_contract :
    (∀ (as : List ActivityEntry) (ms : List MoodEntry),
      (commonDays as ms).length < 3 →
      analyze_activity_correlation as ms =
        { correlation_strength_sq := 0, correlation_type := "insufficient_data",
          confidence := 0 }) ∧
    (∀ (as : List ActivityEntry) (ms : List MoodEntry),
      3 ≤ (commonDays as ms).length →
      (varPop (corrX as ms) = 0 ∨ varPop (corrY as ms) = 0) →
      analyze_activity_correlation as ms =
        { correlation_strength_sq := 0, correlation_type := "none",
          confidence := 2/5 }) ∧
    (∀ (as : List ActivityEntry) (ms : List MoodEntry),
      3 ≤ (commonDays as ms).length →
      varPop (corrX as ms) ≠ 0 → varPop (corrY as ms) ≠ 0 →
      ((analyze_activity_correlation as ms).correlation_type = "positive" ↔
        1/10 < pearsonR (corrX as ms) (corrY as ms)) ∧
      ((analyze_activity_correlation as ms).correlation_type = "negative" ↔
        pearsonR (corrX as ms) (corrY as ms) < -(1/10)) ∧
      ((analyze_activity_correlation as ms).confidence =
        if 3/10 ≤ |pearsonR (corrX as ms) (corrY as ms)| then 3/5 else 2/5) ∧
      (((analyze_activity_correlation as ms).correlation_strength_sq : ℝ) =
        (pearsonR (corrX as ms) (corrY as ms))^2)) ∧
    (analyze_activity_correlation c4_acts c4_ms =
      { correlation_strength_sq := 1, correlation_type := "positive",
        confidence := 3/5 }) := by
  refine ⟨?_, ?_, ?_, by decide⟩
  · intro as ms h
    unfold analyze_activity_correlation
    by_cases hfirst : as.length < 3 ∨ ms.length < 3
    · rw [if_pos hfirst]
    · rw [if_neg hfirst, if_pos h]
  · intro as ms h3 hvar
    have hfirst : ¬(as.length < 3 ∨ ms.length < 3) := by
      have h1 := commonDays_length_le_left as ms
      have h2 := commonDays_length_le_right as ms
      omega
    unfold analyze_activity_correlation
    rw [if_neg hfirst, if_neg (by omega), if_pos hvar]
  · intro as ms h3 hx hy
    have hfirst : ¬(as.length < 3 ∨ ms.length < 3) := by
      have h1 := commonDays_length_le_left as ms
      have h2 := commonDays_length_le_right as ms
      omega
    have hvx : 0 < varPop (corrX as ms) :=
      lt_of_le_of_ne (varPop_nonneg _) (Ne.symm hx)
    have hvy : 0 < varPop (corrY as ms) :=
      lt_of_le_of_ne (varPop_nonneg _) (Ne.symm hy)
    have hdetQ : 0 < varPop (corrX as ms) * varPop (corrY as ms) := mul_pos hvx hvy
    have hdetR : (0:ℝ) < (varPop (corrX as ms) : ℝ) * (varPop (corrY as ms) : ℝ) := by
      exact_mod_cast hdetQ
    have hr : pearsonR (corrX as ms) (corrY as ms) =
        (covPop (corrX as ms) (corrY as ms) : ℝ) /
          Real.sqrt ((varPop (corrX as ms) : ℝ) * (varPop (corrY as ms) : ℝ)) := rfl
    have hbpos := one_tenth_lt_div_sqrt
      ((covPop (corrX as ms) (corrY as ms) : ℚ) : ℝ)
      ((varPop (corrX as ms) : ℝ) * (varPop (corrY as ms) : ℝ)) hdetR
    have hbneg := div_sqrt_lt_neg_one_tenth
      ((covPop (corrX as ms) (corrY as ms) : ℚ) : ℝ)
      ((varPop (corrX as ms) : ℝ) * (varPop (corrY as ms) : ℝ)) hdetR
    have hbabs := three_tenths_le_abs_div_sqrt
      ((covPop (corrX as ms) (corrY as ms) : ℚ) : ℝ)
      ((varPop (corrX as ms) : ℝ) * (varPop (corrY as ms) : ℝ)) hdetR
    have hposQ : (0 < ((covPop (corrX as ms) (corrY as ms) : ℚ) : ℝ) ∧
        (varPop (corrX as ms) : ℝ) * (varPop (corrY as ms) : ℝ) <
          100 * ((covPop (corrX as ms) (corrY as ms) : ℚ) : ℝ)^2) ↔
        (0 < covPop (corrX as ms) (corrY as ms) ∧
          varPop (corrX as ms) * varPop (corrY as ms) <
            100 * (covPop (corrX as ms) (corrY as ms))^2) := by
      constructor
      · rintro ⟨h1, h2⟩
        exact ⟨by exact_mod_cast h1, by exact_mod_cast (by push_cast at h2 ⊢; linarith : ((varPop (corrX as ms) * varPop (corrY as ms) : ℚ) : ℝ) < ((100 * (covPop (corrX as ms) (corrY as ms))^2 : ℚ) : ℝ))⟩
      · rintro ⟨h1, h2⟩
        constructor
        · exact_mod_cast h1
        · exact_mod_cast h2
    have hnegQ : (((covPop (corrX as ms) (corrY as ms) : ℚ) : ℝ) < 0 ∧
        (varPop (corrX as ms) : ℝ) * (varPop (corrY as ms) : ℝ) <
          100 * ((covPop (corrX as ms) (corrY as ms) : ℚ) : ℝ)^2) ↔
        (covPop (corrX as ms) (corrY as ms) < 0 ∧
          varPop (corrX as ms) * varPop (corrY as ms) <
            100 * (covPop (corrX as ms) (corrY as ms))^2) := by
      constructor
      · rintro ⟨h1, h2⟩
        refine ⟨by exact_mod_cast h1, ?_⟩
        have : ((varPop (corrX as ms) * varPop (corrY as ms) : ℚ) : ℝ) <
            ((100 * (covPop (corrX as ms) (corrY as ms))^2 : ℚ) : ℝ) := by
          push_cast at h2 ⊢
          linarith
        exact_mod_cast this
      · rintro ⟨h1, h2⟩
        refine ⟨by exact_mod_cast h1, ?_⟩
        exact_mod_cast h2
    unfold analyze_activity_correlation
    rw [if_neg hfirst, if_neg (by omega), if_neg (by tauto)]
    dsimp only
    refine ⟨?_, ?_, ?_, ?_⟩
    · rw [hr]
      rw [hbpos, hposQ]
      by_cases hpos : 0 < covPop (corrX as ms) (corrY as ms) ∧
          varPop (corrX as ms) * varPop (corrY as ms) <
            100 * (covPop (corrX as ms) (corrY as ms))^2
      · rw [if_pos hpos]
        exact iff_of_true rfl hpos
      · rw [if_neg hpos]
        split_ifs with hneg
        · exact iff_of_false (by decide) hpos
        · exact iff_of_false (by decide) hpos
    · rw [hr, hbneg, hnegQ]
      by_cases hpos : 0 < covPop (corrX as ms) (corrY as ms) ∧
          varPop (corrX as ms) * varPop (corrY as ms) <
            100 * (covPop (corrX as ms) (corrY as ms))^2
      · rw [if_pos hpos]
        refine iff_of_false (by decide) ?_
        rintro ⟨h1, _⟩
        exact absurd hpos.1 (by linarith)
      · rw [if_neg hpos]
        by_cases hneg : covPop (corrX as ms) (corrY as ms) < 0 ∧
            varPop (corrX as ms) * varPop (corrY as ms) <
              100 * (covPop (corrX as ms) (corrY as ms))^2
        · rw [if_pos hneg]
          exact iff_of_true rfl hneg
        · rw [if_neg hneg]
          exact iff_of_false (by decide) hneg
    · rw [hr]
      by_cases habs : 9 * (varPop (corrX as ms) * varPop (corrY as ms)) ≤
          100 * (covPop (corrX as ms) (corrY as ms))^2
      · rw [if_pos habs, if_pos (hbabs.mpr (by exact_mod_cast habs))]
      · rw [if_neg habs, if_neg (fun hcontr => habs (by exact_mod_cast hbabs.mp hcontr))]
    · rw [hr, div_sqrt_sq_eq _ _ hdetR]
      push_cast
      ring

/-- Constant-duration activities on three shared days, for the
zero-variance branch of the claim C4 witness. -/
def c4z_acts : List ActivityEntry :=
  [mkActivity (some 10) true (some 1), mkActivity (some 10) true (some 2),
   mkActivity (some 10) true (some 3)]

/-- Varying moods on the same three days, for the zero-variance branch of
the claim C4 witness. -/
def c4z_ms : List MoodEntry :=
  [mkMood 2 none none none (some 1), mkMood 5 none none none (some 2),
   mkMood 8 none none none (some 3)]

set_option maxRecDepth 100000 in
set_option maxHeartbeats 1000000 in
unseal Rat.add Rat.mul Rat.inv Rat.sub in
/-- Witness for claim C4: the contract instantiated on empty inputs (no
common days), on a constant activity series (zero variance), and on the
scenario input (positive classification). -/
theorem claim_C4_witness :
    (analyze_activity_correlation [] [] =
      { correlation_strength_sq := 0, correlation_type := "insufficient_data",
        confidence := 0 }) ∧
    (analyze_activity_correlation c4z_acts c4z_ms =
      { correlation_strength_sq := 0, correlation_type := "none",
        confidence := 2/5 }) ∧
    ((analyze_activity_correlation c4_acts c4_ms).correlation_type = "positive" ↔
      1/10 < pearsonR (corrX c4_acts c4_ms) (corrY c4_acts c4_ms)) :=
  ⟨claim_C4_correlation_contract.1 [] [] (by decide),
   claim_C4_correlation_contract.2.1 c4z_acts c4z_ms (by decide) (by decide),
   (claim_C4_correlation_contract.2.2.1 c4_acts c4_ms (by decide) (by decide)
     (by decide)).1⟩

/-- Claim C6 (amended): on every run of the effectiveness analysis that
returns an analyzed result, the score is the weighted sum over only the
computed metrics with no renormalisation (0.35 for symptom improvement,
0.25 for mood stability, an absent metric contributing neither weight nor
value); symptom improvement is never computed on a returning run (the
pre/post split raises a TypeError whenever symptoms exist alongside a
plan); and mood stability is absent exactly when no post-treatment mood
exists, equals the literal 0 when exactly one exists, and equals
1 - stddev/10 when two or more exist. -/
theorem claim_C6_effectiveness_weighted_sum (today : ℕ) (plans : List TreatmentPlan)
    (ss : List SymptomEntry) (ms : List MoodEntry) (e : EffOut)
    (h : analyze_treatment_effectiveness today plans ss ms = some (.analyzed e)) :
    (e.effectiveness_score =
      (e.m_symptom_improvement.elim 0 fun v => v * (35/100)) +
      (e.m_mood_stability.elim 0 fun v => v * (1/4))) ∧
    e.m_symptom_improvement = none ∧
    (∀ (plan : TreatmentPlan) (rest : List TreatmentPlan), plans = plan :: rest →
      ((e.m_mood_stability = none ↔ postTreatmentMoods plan ms = []) ∧
       ((postTreatmentMoods plan ms).length = 1 → e.m_mood_stability = some 0) ∧
       (1 < (postTreatmentMoods plan ms).length →
         e.m_mood_stability =
           some (1 - stdPop ((postTreatmentMoods plan ms).map
             (fun m => (m.mood_score : ℝ))) / 10)))) := by
  unfold analyze_treatment_effectiveness at h
  cases plans with
  | nil => exact absurd h (by simp)
  | cons plan0 rest0 =>
    cases ss with
    | cons s t => exact absurd h (by simp)
    | nil =>
      dsimp only at h
      by_cases hany : ms.any (fun m => m.date_recorded = none) = true
      · rw [if_pos hany] at h
        exact absurd h (by simp)
      · rw [if_neg hany] at h
        simp only [Option.some.injEq, EffResult.analyzed.injEq] at h
        subst h
        refine ⟨?_, rfl, ?_⟩
        · dsimp only
          cases moodStabilityMetric plan0 ms <;> simp [Option.elim]
        · intro plan rest hpr
          rw [List.cons.injEq] at hpr
          obtain ⟨hp, _⟩ := hpr
          subst hp
          dsimp only
          unfold moodStabilityMetric
          refine ⟨?_, ?_, ?_⟩
          · by_cases hemp : (postTreatmentMoods plan0 ms).isEmpty
            · rw [if_pos hemp]
              simp only [true_iff]
              exact List.isEmpty_iff.mp hemp
            · rw [if_neg hemp]
              constructor
              · intro hcontr
                exact absurd hcontr (by simp)
              · intro hcontr
                exact absurd (List.isEmpty_iff.mpr hcontr) hemp
          · intro hlen
            have hne : ¬ (postTreatmentMoods plan0 ms).isEmpty = true := by
              rw [List.isEmpty_iff]
              intro hnil
              rw [hnil] at hlen
              simp at hlen
            rw [if_neg hne, if_neg (by omega)]
          · intro hlen
            have hne : ¬ (postTreatmentMoods plan0 ms).isEmpty = true := by
              rw [List.isEmpty_iff]
              intro hnil
              rw [hnil] at hlen
              simp at hlen
            rw [if_neg hne, if_pos hlen]

/-- Treatment plan starting at day 10, used by the claim C6 inputs. -/
def c6_plan : TreatmentPlan :=
  { id := 1, start_date := 10, adherence_percentage := none,
    effectiveness_score := none }

/-- Single post-treatment mood entry (recorded at day 15). -/
def c6_single_ms : List MoodEntry := [mkMood 7 none none none (some 15)]

/-- Projection of the mood-stability metric out of a concrete effectiveness
run, for closed statements. -/
def effResultStability : Option EffResult → Option (Option ℝ)
  | some (.analyzed e) => some e.m_mood_stability
  | _ => none

/-- Counterexample to claim C6 as stated: with exactly one post-treatment
mood point the metric is not omitted; it is included with the value 0. -/
theorem claim_C6_counterexample :
    effResultStability (analyze_treatment_effectiveness 100 [c6_plan] [] c6_single_ms) =
      some (some 0) ∧
    (postTreatmentMoods c6_plan c6_single_ms).length = 1 :=
  ⟨rfl, rfl⟩

theorem varPopR_replicate (n : ℕ) (c : ℝ) (hn : n ≠ 0) :
    varPopR (List.replicate n c) = 0 := by
  have hmean : meanR (List.replicate n c) = c := by
    unfold meanR
    rw [List.sum_replicate, List.length_replicate, nsmul_eq_mul]
    field_simp
  unfold varPopR
  simp only [hmean]
  rw [List.map_replicate]
  simp only [sub_self]
  unfold meanR
  rw [List.sum_replicate]
  norm_num

/-- Ten mood entries all of score 7, recorded after the plan start. -/
def c6_ms : List MoodEntry :=
  [mkMood 7 none none none (some 11), mkMood 7 none none none (some 12),
   mkMood 7 none none none (some 13), mkMood 7 none none none (some 14),
   mkMood 7 none none none (some 15), mkMood 7 none none none (some 16),
   mkMood 7 none none none (some 17), mkMood 7 none none none (some 18),
   mkMood 7 none none none (some 19), mkMood 7 none none none (some 20)]

/-- Effectiveness record computed on the claim C6 witness input. -/
noncomputable def c6_e : EffOut :=
  { current_treatment_id := c6_plan.id,
    treatment_duration_days := (100:ℤ) - (c6_plan.start_date:ℤ),
    effectiveness_score := (moodStabilityMetric c6_plan c6_ms).elim 0 fun v => v * (1/4),
    m_symptom_improvement := none,
    m_mood_stability := moodStabilityMetric c6_plan c6_ms,
    adherence_rate := c6_plan.adherence_percentage.getD 0,
    patient_reported_effectiveness := c6_plan.effectiveness_score.getD 0 }

/-- Witness for claim C6, covering the scenario of the claim: ten
post-treatment mood scores all equal to 7 give mood stability exactly 1
(the standard deviation is 0). -/
theorem claim_C6_witness :
    effResultStability (analyze_treatment_effectiveness 100 [c6_plan] [] c6_ms) =
      some (some 1) := by
  have h : analyze_treatment_effectiveness 100 [c6_plan] [] c6_ms =
      some (.analyzed c6_e) := by
    unfold analyze_treatment_effectiveness c6_e
    dsimp only
    rw [if_neg (by decide)]
    norm_num
  have hc := claim_C6_effectiveness_weighted_sum 100 [c6_plan] [] c6_ms c6_e h
  have hlen : 1 < (postTreatmentMoods c6_plan c6_ms).length := by decide
  have hstab := (hc.2.2 c6_plan [] rfl).2.2 hlen
  have hmap : (postTreatmentMoods c6_plan c6_ms).map (fun m => (m.mood_score : ℝ)) =
      List.replicate 10 ((7:ℚ) : ℝ) := rfl
  rw [hmap] at hstab
  have hstd : stdPop (List.replicate 10 ((7:ℚ):ℝ)) = 0 := by
    unfold stdPop
    rw [varPopR_replicate 10 _ (by norm_num), Real.sqrt_zero]
  rw [hstd] at hstab
  norm_num at hstab
  rw [h]
  show some c6_e.m_mood_stability = some (some 1)
  rw [hstab]

theorem stripEffClock_indep (d1 d2 : ℕ) (plans : List TreatmentPlan)
    (ss : List SymptomEntry) (ms : List MoodEntry) :
    (analyze_treatment_effectiveness d1 plans ss ms).map stripEffClock =
    (analyze_treatment_effectiveness d2 plans ss ms).map stripEffClock := by
  unfold analyze_treatment_effectiveness
  cases plans with
  | nil => rfl
  | cons plan rest =>
    cases ss with
    | cons s t => rfl
    | nil =>
      dsimp only
      by_cases hany : ms.any (fun m => m.date_recorded = none) = true
      · rw [if_pos hany, if_pos hany]
      · rw [if_neg hany, if_neg hany]
        rfl

/-- Claim C2 (amended): with the underlying records unchanged, two runs of
the comprehensive analysis agree on every embedded field except those
derived from the wall clock (the analysis timestamp and the treatment
duration in days); equivalently, the analysis is a pure function of the
records and the clock, with no randomness. -/
theorem claim_C2_idempotent_modulo_clock (t1 d1 t2 d2 : ℕ) (patientExists : Bool)
    (pid : ℕ) (ss : List SymptomEntry) (ms : List MoodEntry)
    (acts : List ActivityEntry) (cas : List AssessmentEntry)
    (plans : List TreatmentPlan) :
    (comprehensive_patient_analysis t1 d1 patientExists pid ss ms acts cas plans).map
        stripClock =
    (comprehensive_patient_analysis t2 d2 patientExists pid ss ms acts cas plans).map
        stripClock := by
  unfold comprehensive_patient_analysis
  cases patientExists with
  | false => rfl
  | true =>
    simp only [Bool.not_true, Bool.false_eq_true, if_false]
    have h := stripEffClock_indep d1 d2 plans ss ms
    cases h1 : analyze_treatment_effectiveness d1 plans ss ms with
    | none =>
      cases h2 : analyze_treatment_effectiveness d2 plans ss ms with
      | none => rfl
      | some e2 =>
        rw [h1, h2] at h
        exact absurd h (by simp)
    | some e1 =>
      cases h2 : analyze_treatment_effectiveness d2 plans ss ms with
      | none =>
        rw [h1, h2] at h
        exact absurd h (by simp)
      | some e2 =>
        rw [h1, h2] at h
        simp only [Option.map_some'] at h
        simp only [Option.map_some']
        rw [Option.some.injEq] at h ⊢
        show ComprehensiveResultCore.analysis _ = ComprehensiveResultCore.analysis _
        rw [ComprehensiveResultCore.analysis.injEq]
        show ({ patient_id := pid,
                data_period_days := 90,
                risk_assessment := comprehensive_risk_assessment ss ms acts cas,
                treatment_effectiveness := stripEffClock e1 } : ComprehensiveCore) = _
        rw [h]

/-- Counterexample to claim C2 as stated: the same snapshot analyzed at two
different wall-clock instants yields different results (the
analysis_timestamp field differs). -/
theorem claim_C2_counterexample :
    comprehensive_patient_analysis 0 0 true 1 [] [] [] [] [] ≠
    comprehensive_patient_analysis 1 0 true 1 [] [] [] [] [] := by
  intro hcontr
  have h0 : comprehensive_patient_analysis 0 0 true 1 [] [] [] [] [] =
      some (.analysis { patient_id := 1,
                        analysis_timestamp := 0,
                        data_period_days := 90,
                        risk_assessment := comprehensive_risk_assessment [] [] [] [],
                        treatment_effectiveness := .noTreatments }) := rfl
  have h1 : comprehensive_patient_analysis 1 0 true 1 [] [] [] [] [] =
      some (.analysis { patient_id := 1,
                        analysis_timestamp := 1,
                        data_period_days := 90,
                        risk_assessment := comprehensive_risk_assessment [] [] [] [],
                        treatment_effectiveness := .noTreatments }) := rfl
  rw [h0, h1] at hcontr
  simp only [Option.some.injEq, ComprehensiveResult.analysis.injEq,
    ComprehensiveAnalysis.mk.injEq] at hcontr
  omega

end CareConnect
